import Mathlib

/-!
Shallow embedding of `src/app.py` (a Streamlit personal finance tracker).

Monetary amounts (Python floats used as exact decimals) are modelled as
rationals; dates as year/month/day triples; pandas dataframes as Lean
lists of records; the sqlite store as a record of tables.  Python
exceptions caught by `try ... except sqlite3.Error` are modelled with
`Except`.
-/

namespace FinanceTracker

/-- Calendar date, as produced by `st.date_input` / `datetime.now().date()`. -/
structure Date where
  year : Nat
  month : Nat
  day : Nat
deriving DecidableEq, Repr

/-- Row of the `transactions` table
`(Date TEXT, Category TEXT, Amount REAL, Description TEXT, Type TEXT, User TEXT)`. -/
structure Transaction where
  date : Date
  category : String
  amount : ℚ
  txDescription : String
  txType : String
  user : String
deriving DecidableEq, Repr

/-- Row of the `automated_payments` table
`(Name TEXT, Amount REAL, Frequency TEXT, NextPaymentDate TEXT, User TEXT)`. -/
structure AutomatedPayment where
  name : String
  amount : ℚ
  frequency : String
  nextPaymentDate : Date
  user : String
deriving DecidableEq, Repr

/-- Row of the `loans` table
`(Name TEXT, Amount REAL, Type TEXT, DueDate TEXT, User TEXT)`. -/
structure Loan where
  name : String
  amount : ℚ
  loanType : String
  dueDate : Date
  user : String
deriving DecidableEq, Repr

/-- Sum of the `Amount` column of a list of transactions
(`df['Amount'].sum()`). -/
def amountSum (l : List Transaction) : ℚ :=
  (l.map (·.amount)).sum

/-- Line 44: `transactions[transactions['Type'] == 'Income']['Amount'].sum()`. -/
def total_income (l : List Transaction) : ℚ :=
  amountSum (l.filter (fun t => t.txType = "Income"))

/-- Line 45: `transactions[transactions['Type'] == 'Expense']['Amount'].sum()`. -/
def total_expenses (l : List Transaction) : ℚ :=
  amountSum (l.filter (fun t => t.txType = "Expense"))

/-- Line 46: `net_savings = total_income - total_expenses`. -/
def net_savings (l : List Transaction) : ℚ :=
  total_income l - total_expenses l

/-- Line 173: `automated_payments['Amount'].sum() if not automated_payments.empty else 0`. -/
def expected_expenses (payments : List AutomatedPayment) : ℚ :=
  if payments ≠ [] then (payments.map (·.amount)).sum else 0

/-- Line 176: `adjusted_savings = total_savings - expected_expenses`. -/
def adjusted_savings (l : List Transaction) (payments : List AutomatedPayment) : ℚ :=
  net_savings l - expected_expenses payments

/-- Lines 179-180: `progress = (adjusted_savings / new_goal) if new_goal > 0 else 0`
followed by `progress = max(0, min(progress, 1))`. -/
def savings_progress (l : List Transaction) (payments : List AutomatedPayment)
    (goal : ℚ) : ℚ :=
  let p : ℚ := if goal > 0 then adjusted_savings l payments / goal else 0
  max 0 (min p 1)

/-- Month key extracted by line 57: `Date.dt.to_period('M')`, i.e. the
(year, month) pair of the transaction date. -/
def monthOf (t : Transaction) : Nat × Nat :=
  (t.date.year, t.date.month)

/-- Row of the monthly summary built on lines 58-61: per-month Income and
Expense sums and their difference. -/
structure MonthlyRow where
  month : Nat × Nat
  income : ℚ
  expense : ℚ
  net : ℚ
deriving DecidableEq, Repr

/-- Per-month, per-Type amount sum produced by
`groupby(['Month', 'Type'])['Amount'].sum()` after
`.unstack(fill_value=0).reindex(columns=['Income','Expense'], fill_value=0)`:
a month/Type cell with no matching rows is 0, never absent. -/
def monthTypeSum (l : List Transaction) (m : Nat × Nat) (ty : String) : ℚ :=
  amountSum (l.filter (fun t => monthOf t = m ∧ t.txType = ty))

/-- Lines 55-61 of `show_dashboard`: one row per month occurring in the
ledger, with Income, Expense, and `Net = Income - Expense` columns.
The groups of a pandas `groupby` are the distinct keys, here taken in
first-occurrence order (the claims do not depend on group order). -/
def monthly_summary (l : List Transaction) : List MonthlyRow :=
  ((l.map monthOf).dedup).map fun m =>
    { month := m
      income := monthTypeSum l m "Income"
      expense := monthTypeSum l m "Expense"
      net := monthTypeSum l m "Income" - monthTypeSum l m "Expense" }

/-- Line 116: the fixed budget categories of the Budget Management page. -/
def budgetCategories : List String :=
  ["Food & Groceries", "Transportation", "Housing/Rent", "Utilities",
   "Entertainment", "Shopping", "Healthcare", "Other"]

/-- Line 129: `transactions[transactions['Type']=='Expense'].groupby('Category')['Amount'].sum()`
followed by `.get(category, 0)` on line 133: the expense sum of a category,
0 when the category has no expense rows. -/
def actual_spending (l : List Transaction) (c : String) : ℚ :=
  amountSum (l.filter (fun t => t.txType = "Expense" ∧ t.category = c))

/-- Python dict lookup with a default, `d.get(k, default)`, over an
association-list model of a dict. -/
def dictGet (d : List (String × ℚ)) (k : String) (default : ℚ) : ℚ :=
  match d.find? (fun p => p.1 = k) with
  | some p => p.2
  | none => default

/-- Row of the `comparison_data` built on lines 131-139. -/
structure ComparisonRow where
  category : String
  budget : ℚ
  actual : ℚ
  difference : ℚ
deriving DecidableEq, Repr

/-- Lines 119-139 of `budget_management`: for each fixed category, the saved
budget amount (`budget_data.get(category, 0.0)`, line 120, carried into
`new_budget_data` as the form's preset value), the actual expense sum
(`actual_spending.get(category, 0)`, line 133), and
`'Difference': budget - actual` (line 138). -/
def comparison_data (budget_data : List (String × ℚ)) (l : List Transaction) :
    List ComparisonRow :=
  budgetCategories.map fun c =>
    { category := c
      budget := dictGet budget_data c 0
      actual := actual_spending l c
      difference := dictGet budget_data c 0 - actual_spending l c }

/-- Line 152: a comparison row triggers the overspending warning exactly when
`row['Actual'] > row['Budget']`. -/
def overspendingAlert (r : ComparisonRow) : Bool :=
  r.actual > r.budget

/-! ### Persistent store (`finance_data.db`) -/

/-- State of the sqlite database `finance_data.db`: one field per table.
The `budget` table has `Category TEXT PRIMARY KEY`; the `savings_goal`
table has `User TEXT PRIMARY KEY` and is modelled per-user as an optional
goal row for the single session user. -/
structure Store where
  transactions : List Transaction
  budget : List (String × ℚ)
  savingsGoal : Option ℚ
  automatedPayments : List AutomatedPayment
  loans : List Loan
deriving Repr

/-- Lines 270-274, success path of `save_to_database(df)`:
`df.to_sql('transactions', conn, if_exists='append', index=False)` appends
the dataframe's rows to the `transactions` table. -/
def save_to_database (s : Store) (df : List Transaction) : Store :=
  { s with transactions := s.transactions ++ df }

/-- Lines 278-291, success path of `load_from_database()`:
`SELECT * FROM transactions` returns the whole table. -/
def load_from_database (s : Store) : List Transaction :=
  s.transactions

/-- Line 309, one `INSERT OR REPLACE INTO budget (Category, Amount)`: with
`Category` the primary key, any existing row with a conflicting category is
deleted and the new row inserted (sqlite REPLACE semantics). -/
def insertOrReplaceBudget (table : List (String × ℚ)) (c : String) (a : ℚ) :
    List (String × ℚ) :=
  (table.filter (fun p => p.1 ≠ c)) ++ [(c, a)]

/-- Category column of the budget table. -/
def budgetKeys (table : List (String × ℚ)) : List String :=
  table.map (fun p => p.1)

/-- Lines 296-312, success path of `save_budget_to_database(budget_data)`:
one `INSERT OR REPLACE` per item of the mapping, in order. -/
def save_budget_to_database (s : Store) (budget_data : List (String × ℚ)) :
    Store :=
  { s with
    budget := budget_data.foldl (fun t p => insertOrReplaceBudget t p.1 p.2) s.budget }

/-- Lines 316-325, success path of `load_budget_from_database()`:
`SELECT * FROM budget` materialised as the dict `{row[0]: row[1]}`. -/
def load_budget_from_database (s : Store) : List (String × ℚ) :=
  s.budget

/-- Lines 330-345, success path of `save_savings_goal_to_database(goal)`:
`INSERT OR REPLACE INTO savings_goal (User, Goal)` keyed by the session
user. -/
def save_savings_goal_to_database (s : Store) (goal : ℚ) : Store :=
  { s with savingsGoal := some goal }

/-- Lines 349-364, success path of `load_savings_goal_from_database()`:
`result[0] if result else 0`. -/
def load_savings_goal_from_database (s : Store) : ℚ :=
  match s.savingsGoal with
  | some g => g
  | none => 0

/-- Lines 369-381, success path of `save_automated_payment_to_database(df)`. -/
def save_automated_payment_to_database (s : Store) (df : List AutomatedPayment) :
    Store :=
  { s with automatedPayments := s.automatedPayments ++ df }

/-- Lines 385-398, success path of `load_automated_payments_from_database()`. -/
def load_automated_payments_from_database (s : Store) : List AutomatedPayment :=
  s.automatedPayments

/-- Lines 403-415, success path of `save_loan_to_database(df)`. -/
def save_loan_to_database (s : Store) (df : List Loan) : Store :=
  { s with loans := s.loans ++ df }

/-- Lines 419-432, success path of `load_loans_from_database()`. -/
def load_loans_from_database (s : Store) : List Loan :=
  s.loans

/-! ### Error fallback (`try ... except sqlite3.Error`)

Each load function wraps its body in `try`/`except sqlite3.Error`; the
body either produces the table contents or raises.  The raised-or-value
outcome of the body is modelled as an `Except`, and each `..._caught`
function is the whole `try`/`except` statement: it returns the body's
value on success and the `except` branch's fallback on a database
error. -/

/-- Database exception `sqlite3.Error`, carrying its message. -/
structure DbError where
  msg : String
deriving Repr

/-- Lines 278-294, `load_from_database` including its `except` branch:
a caught `sqlite3.Error` yields `pd.DataFrame()`, the empty dataframe. -/
def load_from_database_caught (body : Except DbError (List Transaction)) :
    List Transaction :=
  match body with
  | .ok df => df
  | .error _ => []

/-- Lines 316-328, `load_budget_from_database` including its `except` branch:
a caught `sqlite3.Error` yields `{}`, the empty dict. -/
def load_budget_from_database_caught (body : Except DbError (List (String × ℚ))) :
    List (String × ℚ) :=
  match body with
  | .ok d => d
  | .error _ => []

/-- Lines 349-367, `load_savings_goal_from_database` including its `except`
branch: a caught `sqlite3.Error` yields `0`. -/
def load_savings_goal_from_database_caught (body : Except DbError ℚ) : ℚ :=
  match body with
  | .ok g => g
  | .error _ => 0

/-- Lines 385-401, `load_automated_payments_from_database` including its
`except` branch: a caught `sqlite3.Error` yields the empty dataframe. -/
def load_automated_payments_from_database_caught
    (body : Except DbError (List AutomatedPayment)) : List AutomatedPayment :=
  match body with
  | .ok df => df
  | .error _ => []

/-- Lines 419-435, `load_loans_from_database` including its `except` branch:
a caught `sqlite3.Error` yields the empty dataframe. -/
def load_loans_from_database_caught (body : Except DbError (List Loan)) :
    List Loan :=
  match body with
  | .ok df => df
  | .error _ => []

/-! ### Loans page (`loans`, lines 215-256) -/

/-- Lines 238-245: the synthetic transaction written when a "Given" loan is
added: `Date=datetime.now().date()`, `Category="Other"`,
`Description=f"Loan Given: {loan_name}"`, `Type="Expense"`. -/
def loanGivenTransaction (loan_name : String) (amount : ℚ) (today : Date)
    (user : String) : Transaction :=
  { date := today
    category := "Other"
    amount := amount
    txDescription := "Loan Given: " ++ loan_name
    txType := "Expense"
    user := user }

/-- Lines 225-248, the "Add Loan" button handler: save the loan row, and when
`loan_type == "Given"` additionally append the synthetic expense transaction
through `save_to_database`. -/
def add_loan (s : Store) (loan_name : String) (amount : ℚ) (loan_type : String)
    (due_date : Date) (today : Date) (user : String) : Store :=
  let s1 := save_loan_to_database s
    [{ name := loan_name, amount := amount, loanType := loan_type,
       dueDate := due_date, user := user }]
  if loan_type = "Given" then
    save_to_database s1 [loanGivenTransaction loan_name amount today user]
  else
    s1

/-! ### CSV export (`data_export`, lines 258-268) -/

/-- Two-digit zero-padded rendering of a month or day number. -/
def pad2 (n : Nat) : String :=
  if n < 10 then "0" ++ toString n else toString n

/-- ISO-8601 text form of a date, as stored and exported. -/
def dateCsv (d : Date) : String :=
  toString d.year ++ "-" ++ pad2 d.month ++ "-" ++ pad2 d.day

/-- Header row emitted by `to_csv(index=False)`: the column names of the
`transactions` table in declaration order. -/
def csvHeader : String :=
  "Date,Category,Amount,Description,Type,User"

/-- One data row of the CSV: the six column values of a record,
comma-joined, in the fixed column order of the table. -/
def transactionCsvRow (t : Transaction) : String :=
  String.intercalate ","
    [dateCsv t.date, t.category, toString t.amount, t.txDescription,
     t.txType, t.user]

/-- Line 262, `st.session_state.transactions.to_csv(index=False)`, viewed as
its list of lines: the header line followed by one line per record in
insertion order (no index column). -/
def to_csv_lines (l : List Transaction) : List String :=
  csvHeader :: l.map transactionCsvRow

/-- Line 266: the download artifact's file name. -/
def export_file_name : String :=
  "personal_finance_data.csv"

/-! ### Module name resolution (`budget_management` chart, lines 141-147)

Lines 1-5 of `app.py` bind exactly the names `st`, `pd`, `px`, `sqlite3`
and `datetime`; the module's own `def` statements bind its function names.
Evaluating any other global name raises `NameError`. -/

/-- Names bound by the import statements on lines 1-5. -/
def moduleImportedNames : List String :=
  ["st", "pd", "px", "sqlite3", "datetime"]

/-- Names bound by the module's top-level `def` statements. -/
def moduleDefinedNames : List String :=
  ["main", "show_dashboard", "show_transactions", "budget_management",
   "savings_goals", "automated_payments", "loans", "data_export",
   "save_to_database", "load_from_database", "save_budget_to_database",
   "load_budget_from_database", "save_savings_goal_to_database",
   "load_savings_goal_from_database", "save_automated_payment_to_database",
   "load_automated_payments_from_database", "save_loan_to_database",
   "load_loans_from_database"]

/-- Python `NameError`, carrying the unresolved name. -/
structure PyNameError where
  name : String
deriving DecidableEq, Repr

/-- Evaluation of a global name in the module: succeeds when the name is
bound by an import or a top-level `def`, raises `NameError` otherwise. -/
def evalGlobalName (n : String) : Except PyNameError Unit :=
  if moduleImportedNames.contains n ∨ moduleDefinedNames.contains n then
    .ok ()
  else
    .error { name := n }

/-- Lines 127-153 of `budget_management`, from the "Budget vs Actual
Spending" section on: build `comparison_df` (lines 131-141), then construct
the chart with `go.Figure(...)` (line 142) — which first evaluates the
global name `go` — and, if that succeeds, reach the "Budget Alerts" section
(lines 150-153), whose warnings are the rows with `Actual > Budget`.
Returns the comparison rows together with the alerted rows, or the raised
`NameError`. -/
def budget_management_comparison (budget_data : List (String × ℚ))
    (l : List Transaction) :
    Except PyNameError (List ComparisonRow × List ComparisonRow) :=
  let comparison_df := comparison_data budget_data l
  match evalGlobalName "go" with
  | .error e => .error e
  | .ok _ => .ok (comparison_df, comparison_df.filter overspendingAlert)

/-! ### Sample data used by witnesses -/

/-- Sample date. -/
def sampleDate : Date :=
  { year := 2024, month := 1, day := 15 }

/-- Sample income transaction of amount 100. -/
def sampleIncomeTx : Transaction :=
  { date := sampleDate, category := "Salary", amount := 100,
    txDescription := "salary", txType := "Income", user := "default_user" }

/-- Sample expense transaction of amount 30 in "Food & Groceries". -/
def sampleExpenseTx : Transaction :=
  { date := { year := 2024, month := 2, day := 3 },
    category := "Food & Groceries", amount := 30,
    txDescription := "food", txType := "Expense", user := "default_user" }

/-- Sample automated payment of amount 20. -/
def samplePayment : AutomatedPayment :=
  { name := "Streaming", amount := 20, frequency := "Monthly",
    nextPaymentDate := sampleDate, user := "default_user" }

/-- Store with all five tables empty. -/
def emptyStore : Store :=
  { transactions := [], budget := [], savingsGoal := none,
    automatedPayments := [], loans := [] }

/-- Comparison row for a category with no saved budget and no expenses. -/
def sampleComparisonRow : ComparisonRow :=
  { category := "Food & Groceries", budget := 0, actual := 0, difference := 0 }

/-! ### Theorems -/

/-- C4: for every non-empty ledger whose transaction amounts are all
positive, total income is the sum over Income rows, total expenses the sum
over Expense rows, net equals income minus expenses, and both totals are
nonnegative. -/
theorem totals_spec (l : List Transaction) (hne : l ≠ [])
    (hpos : ∀ t ∈ l, 0 < t.amount) :
    net_savings l = total_income l - total_expenses l
    ∧ 0 ≤ total_income l
    ∧ 0 ≤ total_expenses l := by
  refine ⟨rfl, ?_, ?_⟩ <;>
  · apply List.sum_nonneg
    intro x hx
    simp only [List.mem_map] at hx
    obtain ⟨t, ht, rfl⟩ := hx
    exact le_of_lt (hpos t (List.mem_filter.mp ht).1)

/-- Witness for C4 on a concrete two-row ledger. -/
theorem totals_spec_witness :
    net_savings [sampleIncomeTx, sampleExpenseTx]
      = total_income [sampleIncomeTx, sampleExpenseTx]
        - total_expenses [sampleIncomeTx, sampleExpenseTx]
    ∧ 0 ≤ total_income [sampleIncomeTx, sampleExpenseTx]
    ∧ 0 ≤ total_expenses [sampleIncomeTx, sampleExpenseTx] :=
  totals_spec [sampleIncomeTx, sampleExpenseTx] (by simp) (by decide)

/-- C1: savings equals income minus expenses, adjusted savings subtracts the
unconditional sum of all automated-payment amounts (frequency ignored) and
is displayed unclamped, and the progress fraction is adjusted/goal when the
goal is positive (else 0), clamped to [0, 1]; in particular it is 0 when
goal = 0, it is 1 when adjusted ≥ goal > 0, and it is 0 when adjusted < 0. -/
theorem savings_progress_spec (l : List Transaction)
    (payments : List AutomatedPayment) (goal : ℚ) :
    adjusted_savings l payments
      = (total_income l - total_expenses l) - (payments.map (·.amount)).sum
    ∧ 0 ≤ savings_progress l payments goal
    ∧ savings_progress l payments goal ≤ 1
    ∧ (goal = 0 → savings_progress l payments goal = 0)
    ∧ (goal > 0 → goal ≤ adjusted_savings l payments →
        savings_progress l payments goal = 1)
    ∧ (adjusted_savings l payments < 0 →
        savings_progress l payments goal = 0) := by
  refine ⟨?_, le_max_left 0 _, ?_, ?_, ?_, ?_⟩
  · unfold adjusted_savings net_savings expected_expenses
    by_cases h : payments = []
    · subst h; simp
    · simp [h]
  · exact max_le (by norm_num) (min_le_right _ 1)
  · intro hg
    simp [savings_progress, hg]
  · intro hg hge
    have h1 : (1 : ℚ) ≤ adjusted_savings l payments / goal :=
      (one_le_div hg).mpr hge
    show max 0 (min (if goal > 0 then adjusted_savings l payments / goal else 0) 1) = 1
    rw [if_pos hg, min_eq_right h1, max_eq_right zero_le_one]
  · intro hneg
    show max 0 (min (if goal > 0 then adjusted_savings l payments / goal else 0) 1) = 0
    by_cases hg : goal > 0
    · rw [if_pos hg]
      have h1 : adjusted_savings l payments / goal < 0 :=
        div_neg_of_neg_of_pos hneg hg
      rw [min_eq_left (le_of_lt (lt_of_lt_of_le h1 zero_le_one)),
        max_eq_left (le_of_lt h1)]
    · rw [if_neg hg]
      norm_num

/-- Witness for C1: income 100, one automated payment of 20, goal 10 gives
adjusted savings 80 ≥ 10 > 0 and full progress. -/
theorem savings_progress_spec_witness :
    savings_progress [sampleIncomeTx] [samplePayment] 10 = 1 :=
  (savings_progress_spec [sampleIncomeTx] [samplePayment] 10).2.2.2.2.1
    (by norm_num)
    (by
      have hni : "Income" ≠ "Expense" := by decide
      norm_num [adjusted_savings, net_savings, expected_expenses,
        total_income, total_expenses, amountSum, sampleIncomeTx, samplePayment,
        List.filter_cons, List.filter_nil, hni])

/-- C5: adding a loan with Type "Given" appends exactly one synthetic
transaction to the ledger — Type Expense, Category "Other", Description
"Loan Given: {name}", the loan's amount, today's date, the session user —
while adding a loan with Type "Taken" appends no transaction. -/
theorem add_loan_spec (s : Store) (n : String) (a : ℚ) (d today : Date)
    (u : String) :
    (add_loan s n a "Given" d today u).transactions
      = s.transactions ++
        [{ date := today, category := "Other", amount := a,
           txDescription := "Loan Given: " ++ n, txType := "Expense",
           user := u }]
    ∧ (add_loan s n a "Taken" d today u).transactions = s.transactions := by
  constructor
  · rfl
  · simp [add_loan, save_loan_to_database]

/-- C6: appending a record to the store and reloading yields the prior
ledger extended with exactly that record at the end; hence the prior ledger
is a sublist of the reloaded one and the reloaded one holds a record with
all six submitted field values. -/
theorem append_reload_roundtrip (s : Store) (r : Transaction) :
    load_from_database (save_to_database s [r]) = load_from_database s ++ [r]
    ∧ List.Sublist (load_from_database s)
        (load_from_database (save_to_database s [r]))
    ∧ ∃ t ∈ load_from_database (save_to_database s [r]),
        t.date = r.date ∧ t.category = r.category ∧ t.amount = r.amount
        ∧ t.txDescription = r.txDescription ∧ t.txType = r.txType
        ∧ t.user = r.user := by
  refine ⟨rfl, List.sublist_append_left _ _,
    ⟨r, ?_, rfl, rfl, rfl, rfl, rfl, rfl⟩⟩
  simp [load_from_database, save_to_database]

/-- C7: the CSV export of a ledger of N records has N+1 lines — the header
line `Date,Category,Amount,Description,Type,User` followed by one line per
record, in insertion order, with the six columns in that fixed order — and
is offered under the file name personal_finance_data.csv. -/
theorem csv_export_spec (l : List Transaction) :
    (to_csv_lines l).length = l.length + 1
    ∧ (to_csv_lines l).head? = some "Date,Category,Amount,Description,Type,User"
    ∧ (∀ i : Nat, (to_csv_lines l)[i + 1]? = l[i]?.map transactionCsvRow)
    ∧ export_file_name = "personal_finance_data.csv" := by
  refine ⟨by simp [to_csv_lines], rfl, ?_, rfl⟩
  intro i
  simp [to_csv_lines]

/-- C9: when the underlying store raises a database error, loading the
transaction ledger, automated payments, or loans returns an empty
collection, loading the budget returns an empty mapping, and loading the
savings goal returns zero. -/
theorem load_error_fallback_spec (e : DbError) :
    load_from_database_caught (Except.error e) = []
    ∧ load_automated_payments_from_database_caught (Except.error e) = []
    ∧ load_loans_from_database_caught (Except.error e) = []
    ∧ load_budget_from_database_caught (Except.error e) = []
    ∧ load_savings_goal_from_database_caught (Except.error e) = 0 :=
  ⟨rfl, rfl, rfl, rfl, rfl⟩

/-- C10: the name `go` is bound neither by the module's imports nor by its
top-level definitions, so the Budget Management comparison-chart
construction raises NameError on every input and the overspending-alerts
section after it is never reached. -/
theorem budget_chart_name_error_spec :
    ("go" ∉ moduleImportedNames ∧ "go" ∉ moduleDefinedNames)
    ∧ ∀ (bd : List (String × ℚ)) (l : List Transaction),
        budget_management_comparison bd l
          = Except.error { name := "go" } := by
  refine ⟨⟨by decide, by decide⟩, ?_⟩
  intro bd l
  have hc : ¬("go" ∈ moduleImportedNames ∨ "go" ∈ moduleDefinedNames) := by
    decide
  simp [budget_management_comparison, evalGlobalName, hc]

/-- Helper: a month/Type cell with no matching ledger rows sums to 0. -/
theorem monthTypeSum_eq_zero (l : List Transaction) (m : Nat × Nat) (ty : String)
    (h : ∀ t ∈ l, ¬(monthOf t = m ∧ t.txType = ty)) :
    monthTypeSum l m ty = 0 := by
  have hf : (l.filter fun t => monthOf t = m ∧ t.txType = ty) = [] := by
    simp only [List.filter_eq_nil_iff]
    intro a ha
    simpa using h a ha
  unfold monthTypeSum amountSum
  rw [hf]
  rfl

/-- C2: every monthly-summary row satisfies Net = Income − Expense, its
Income and Expense cells are the per-month per-Type sums and are 0 (never
absent) when the month has no rows of that Type, and every month with at
least one transaction appears exactly once in the summary. -/
theorem monthly_summary_spec (l : List Transaction) :
    (∀ r ∈ monthly_summary l,
        r.net = r.income - r.expense
        ∧ r.income = monthTypeSum l r.month "Income"
        ∧ r.expense = monthTypeSum l r.month "Expense"
        ∧ ((∀ t ∈ l, ¬(monthOf t = r.month ∧ t.txType = "Income")) → r.income = 0)
        ∧ ((∀ t ∈ l, ¬(monthOf t = r.month ∧ t.txType = "Expense")) → r.expense = 0))
    ∧ ((monthly_summary l).map (fun r => r.month)).Nodup
    ∧ ∀ m : Nat × Nat,
        m ∈ (monthly_summary l).map (fun r => r.month) ↔
          ∃ t ∈ l, monthOf t = m := by
  have hmap : (monthly_summary l).map (fun r => r.month)
      = (l.map monthOf).dedup := by
    simp [monthly_summary, List.map_map, Function.comp_def]
  refine ⟨?_, ?_, ?_⟩
  · intro r hr
    simp only [monthly_summary, List.mem_map] at hr
    obtain ⟨m, hm, rfl⟩ := hr
    exact ⟨rfl, rfl, rfl, monthTypeSum_eq_zero l m "Income",
      monthTypeSum_eq_zero l m "Expense"⟩
  · rw [hmap]
    exact List.nodup_dedup _
  · intro m
    rw [hmap, List.mem_dedup, List.mem_map]

/-- Witness for C2: a two-row ledger in which January 2024 has a
transaction, so that month appears in the rollup. -/
theorem monthly_summary_spec_witness :
    (2024, 1) ∈ (monthly_summary [sampleIncomeTx, sampleExpenseTx]).map
      (fun r => r.month) :=
  ((monthly_summary_spec [sampleIncomeTx, sampleExpenseTx]).2.2 (2024, 1)).mpr
    ⟨sampleIncomeTx, by simp, rfl⟩

/-- C3: the budget comparison has one row per fixed budget category, in
order; each row pairs the saved budget amount (default 0) with the actual
expense sum for the category (default 0), its Difference is Budget − Actual,
and the overspending warning fires exactly when Actual > Budget. -/
theorem budget_comparison_spec (bd : List (String × ℚ)) (l : List Transaction) :
    (comparison_data bd l).map (fun r => r.category) = budgetCategories
    ∧ ∀ r ∈ comparison_data bd l,
        r.budget = dictGet bd r.category 0
        ∧ r.actual = actual_spending l r.category
        ∧ r.difference = r.budget - r.actual
        ∧ (overspendingAlert r = true ↔ r.budget < r.actual) := by
  constructor
  · simp [comparison_data, List.map_map, Function.comp_def]
  · intro r hr
    simp only [comparison_data, List.mem_map] at hr
    obtain ⟨c, hc, rfl⟩ := hr
    exact ⟨rfl, rfl, rfl, by simp [overspendingAlert]⟩

/-- Witness for C3: with no saved budget and an empty ledger, the
"Food & Groceries" row has Difference = Budget − Actual. -/
theorem budget_comparison_spec_witness :
    sampleComparisonRow.difference
      = sampleComparisonRow.budget - sampleComparisonRow.actual := by
  have hmem : sampleComparisonRow ∈ comparison_data [] [] := by
    simp [sampleComparisonRow, comparison_data, budgetCategories, dictGet,
      actual_spending, amountSum]
  exact ((budget_comparison_spec [] []).2 _ hmem).2.2.1

/-- Helper: looking up the upserted category reads the new amount. -/
theorem dictGet_insertOrReplaceBudget_same (t : List (String × ℚ)) (c : String)
    (a : ℚ) :
    dictGet (insertOrReplaceBudget t c a) c 0 = a := by
  unfold insertOrReplaceBudget dictGet
  rw [List.find?_append]
  have h1 : (t.filter fun p => p.1 ≠ c).find? (fun p => decide (p.1 = c)) = none := by
    simp only [List.find?_eq_none]
    intro x hx
    have hf := List.of_mem_filter hx
    simpa using hf
  rw [h1]
  simp

/-- Helper: looking up a different category is unaffected by an upsert. -/
theorem dictGet_insertOrReplaceBudget_other (t : List (String × ℚ))
    (c c2 : String) (a d : ℚ) (h : c2 ≠ c) :
    dictGet (insertOrReplaceBudget t c a) c2 d = dictGet t c2 d := by
  have h3 : ∀ t2 : List (String × ℚ),
      (t2.filter fun p => p.1 ≠ c).find? (fun p => decide (p.1 = c2))
        = t2.find? (fun p => decide (p.1 = c2)) := by
    intro t2
    induction t2 with
    | nil => rfl
    | cons q t3 ih =>
      rw [List.filter_cons]
      by_cases hqc : q.1 = c
      · rw [if_neg (by simp [hqc]), ih,
          List.find?_cons_of_neg _ (by simp [hqc, Ne.symm h])]
      · by_cases hq : q.1 = c2
        · rw [if_pos (by simp [hqc]),
            List.find?_cons_of_pos _ (by simp [hq]),
            List.find?_cons_of_pos _ (by simp [hq])]
        · rw [if_pos (by simp [hqc]),
            List.find?_cons_of_neg _ (by simp [hq]),
            List.find?_cons_of_neg _ (by simp [hq]), ih]
  unfold insertOrReplaceBudget dictGet
  rw [List.find?_append, h3]
  have h2 : List.find? (fun p => decide (p.1 = c2)) [(c, a)] = none := by
    simp [Ne.symm h]
  rw [h2]
  cases t.find? (fun p => decide (p.1 = c2)) <;> simp

/-- Helper: looking up an absent category yields the default. -/
theorem dictGet_eq_default_of_not_mem (t : List (String × ℚ)) (c : String)
    (d : ℚ) (h : c ∉ budgetKeys t) :
    dictGet t c d = d := by
  unfold dictGet
  have hn : t.find? (fun p => decide (p.1 = c)) = none := by
    simp only [List.find?_eq_none]
    intro x hx
    simp only [decide_eq_true_eq]
    intro hxc
    exact h (by unfold budgetKeys; exact List.mem_map.mpr ⟨x, hx, hxc⟩)
  rw [hn]

/-- Helper: one upsert keeps the Category column duplicate-free. -/
theorem budgetKeys_insertOrReplaceBudget_nodup (t : List (String × ℚ))
    (c : String) (a : ℚ) (h : (budgetKeys t).Nodup) :
    (budgetKeys (insertOrReplaceBudget t c a)).Nodup := by
  unfold budgetKeys insertOrReplaceBudget
  rw [List.map_append]
  apply List.Nodup.append
  · exact ((List.filter_sublist t).map _).nodup h
  · simp
  · intro x hx hx2
    simp only [List.map_cons, List.map_nil, List.mem_singleton] at hx2
    subst hx2
    obtain ⟨p, hp, rfl⟩ := List.mem_map.mp hx
    have hf := List.of_mem_filter hp
    simp at hf

/-- Helper: saving a whole budget mapping keeps the Category column
duplicate-free. -/
theorem budgetKeys_save_nodup (data : List (String × ℚ))
    (t : List (String × ℚ)) (h : (budgetKeys t).Nodup) :
    (budgetKeys
      (data.foldl (fun t2 p => insertOrReplaceBudget t2 p.1 p.2) t)).Nodup := by
  induction data generalizing t with
  | nil => exact h
  | cons p data2 ih =>
    exact ih _ (budgetKeys_insertOrReplaceBudget_nodup t p.1 p.2 h)

/-- C8: saving a budget mapping preserves uniqueness of the budget table's
Category column, and after saving a mapping assigning 200 to
"Food & Groceries", reloading reads back exactly 200 for that category and
the 0.0 default for every other known category not previously set. -/
theorem budget_upsert_spec (s : Store) (data : List (String × ℚ))
    (h : (budgetKeys s.budget).Nodup) :
    (budgetKeys
      (load_budget_from_database (save_budget_to_database s data))).Nodup
    ∧ dictGet (load_budget_from_database
        (save_budget_to_database s [("Food & Groceries", 200)]))
        "Food & Groceries" 0 = 200
    ∧ (∀ c ∈ budgetCategories, c ≠ "Food & Groceries" →
        c ∉ budgetKeys s.budget →
        dictGet (load_budget_from_database
          (save_budget_to_database s [("Food & Groceries", 200)])) c 0 = 0) := by
  refine ⟨budgetKeys_save_nodup data s.budget h, ?_, ?_⟩
  · show dictGet (insertOrReplaceBudget s.budget "Food & Groceries" 200)
      "Food & Groceries" 0 = 200
    exact dictGet_insertOrReplaceBudget_same _ _ _
  · intro c hc hne2 hnotmem
    show dictGet (insertOrReplaceBudget s.budget "Food & Groceries" 200) c 0 = 0
    rw [dictGet_insertOrReplaceBudget_other _ _ _ _ _ hne2]
    exact dictGet_eq_default_of_not_mem _ _ _ hnotmem

/-- Witness for C8 on the empty store: reading back the saved category gives
200 and reading back an unset category gives 0. -/
theorem budget_upsert_spec_witness :
    dictGet (load_budget_from_database
        (save_budget_to_database emptyStore [("Food & Groceries", 200)]))
        "Food & Groceries" 0 = 200
    ∧ dictGet (load_budget_from_database
        (save_budget_to_database emptyStore [("Food & Groceries", 200)]))
        "Transportation" 0 = 0 :=
  ⟨(budget_upsert_spec emptyStore [] (by simp [budgetKeys, emptyStore])).2.1,
   (budget_upsert_spec emptyStore [] (by simp [budgetKeys, emptyStore])).2.2
     "Transportation" (by decide) (by decide)
     (by simp [budgetKeys, emptyStore])⟩

end FinanceTracker
